import Mathlib

/-
Verification of the bsutils Option/Result core against its specification.

The Python code is dynamically typed, and several of the interesting
questions concern values whose runtime type differs from the annotated
type (for example `Result.and_` returning a bare payload where a `Result`
instance is annotated).  We therefore embed the code over a single dynamic
value domain `Val`:

  * `Val.nat`, `Val.str`, `Val.pyNone` model Python ints, strings and `None`;
  * `Val.someV v` models an `Option` instance whose `optb` field is
    `Option._Some(v)`, and `Val.noneV` one whose `optb` is `None`
    (`option.py`, lines 16-24);
  * `Val.ok v` / `Val.err e` model a `Result` instance whose `res` field is
    `Result._Ok(v)` / `Result._Err(e)` (`result.py`, lines 18-28);
  * `Val.exc` models a raised-and-captured exception object.

The state of an `Option` instance is fully determined by its `optb` field,
so `Option` methods are functions on `Option Val` (the `optb` field:
`none` = Python `None`, `some v` = `_Some(v)`).  Likewise `Result` methods
are functions on `RF`, the two shapes of the `res` field.  Methods that
mutate `self` return the new state explicitly; methods that can raise
return `Except PyErr`.
-/

deriving instance DecidableEq for Except

namespace BSUtils

/-- Modelled from the spec: the module `exception.py` defining the single
error kind `UnwrapError(message: string)` is not among the provided
sources, so `unwrapError` follows the spec wording.  The remaining
constructors are the Python built-in error kinds the embedded code can
raise: `AssertionError` from bare `assert` statements, `RuntimeError`
produced by the interpreter under PEP 479, and `ZeroDivisionError` from
division by zero. -/
inductive PyErr where
  | unwrapError (msg : String)
  | assertionError (msg : String)
  | runtimeError (msg : String)
  | zeroDivisionError (msg : String)
deriving DecidableEq

/-- The dynamic value domain: Python values as the bsutils code handles
them.  `someV` and `noneV` are `Option` container instances (the two
states of the `optb` field); `ok` and `err` are `Result` container
instances (the two states of the `res` field). -/
inductive Val where
  | nat : Nat → Val
  | str : String → Val
  | pyNone : Val
  | someV : Val → Val
  | noneV : Val
  | ok : Val → Val
  | err : Val → Val
  | exc : PyErr → Val
deriving DecidableEq

/-- The `res` field of a `Result` instance: `_Ok(value)` or `_Err(error)`
(`result.py`, lines 18-28). -/
inductive RF where
  | Ok : Val → RF
  | Err : Val → RF
deriving DecidableEq

/-- Embed an `Option` instance state (its `optb` field) into the value
domain. -/
def Val.ofOpt : Option Val → Val
  | some v => Val.someV v
  | none => Val.noneV

/-- Embed a `Result` instance state (its `res` field) into the value
domain. -/
def Val.ofRes : RF → Val
  | .Ok v => Val.ok v
  | .Err e => Val.err e

/-- The message stored in an exception object; `str()` of a Python
exception instance constructed with a single string argument. -/
def PyErr.message : PyErr → String
  | .unwrapError m => m
  | .assertionError m => m
  | .runtimeError m => m
  | .zeroDivisionError m => m

/-- Python `str()` on the value domain, as the f-strings of the code use
it: decimal for ints, identity on strings, `"None"` for `None`,
`Option.__str__` (`option.py`, lines 236-240), `Result.__str__`
(`result.py`, lines 197-202), and the stored message for exceptions. -/
def pyStr : Val → String
  | .nat n => toString n
  | .str s => s
  | .pyNone => "None"
  | .someV v => "Some(" ++ pyStr v ++ ")"
  | .noneV => "None"
  | .ok v => "Ok(" ++ pyStr v ++ ")"
  | .err e => "Err(" ++ pyStr e ++ ")"
  | .exc e => PyErr.message e

/-- `Option.expect` (`option.py`, lines 46-50): return the value if the
`optb` field is a `_Some`, otherwise raise `UnwrapError(msg)`. -/
def Option.expect (self : Option Val) (msg : String) : Except PyErr Val :=
  match self with
  | some v => .ok v
  | none => .error (.unwrapError msg)

/-- `Option.unwrap` (`option.py`, lines 52-56). -/
def Option.unwrap (self : Option Val) : Except PyErr Val :=
  match self with
  | some v => .ok v
  | none => .error (.unwrapError "called `Option.unwrap()` on a `None` value")

/-- `Option.ok_or` (`option.py`, lines 95-99): build a `Result` instance,
`_Ok(value)` when present, `_Err(error)` when empty. -/
def Option.ok_or (self : Option Val) (error : Val) : RF :=
  match self with
  | some v => .Ok v
  | none => .Err error

/-- `Option.insert` (`option.py`, lines 145-147): set `self.optb` to
`_Some(value)` and return `self`.  The first component is the new state of
the container, the second the returned object: `self` itself, which at
return time holds `_Some(value)`. -/
def Option.insert (_self : Option Val) (value : Val) : Option Val × Val :=
  (some value, Val.ofOpt (some value))

/-- `Option.take` (`option.py`, lines 161-167): when present, clear
`self.optb` and return a fresh `create_some(value)`; when empty, leave
`self` unchanged and return `Option(None)`.  First component: new state
of `self`; second: the `optb` state of the returned `Option` instance. -/
def Option.take (self : Option Val) : Option Val × Option Val :=
  match self with
  | some v => (none, some v)
  | none => (none, none)

/-- `Option.transpose` (`option.py`, lines 217-221), exactly as written:
when the `optb` field is `_Some(v)` it returns
`Result.create_ok(Option.create_some(v))` without ever inspecting the
inner `Result` `v`; when empty it returns `Result.create_err(None)` with
the Python `None` object as the error payload. -/
def Option.transpose (self : Option Val) : RF :=
  match self with
  | some v => .Ok (Val.someV v)
  | none => .Err Val.pyNone

/-- `Option.__iter__` (`option.py`, lines 230-234) is a generator: when
present it yields the value and then terminates normally; when empty the
body executes `raise StopIteration`, which the interpreter converts to
`RuntimeError("generator raised StopIteration")` under PEP 479 (mandatory
since Python 3.7, and the file uses `from __future__ import annotations`,
requiring at least 3.7).  First component: the values the iterator yields;
second: `none` for clean exhaustion, `some e` when draining it raises. -/
def Option.iterAll (self : Option Val) : List Val × Option PyErr :=
  match self with
  | some v => ([v], none)
  | none => ([], some (.runtimeError "generator raised StopIteration"))

/-- `Result.ok` (`result.py`, lines 50-54): `create_some(value)` on `_Ok`,
`Option(None)` on `_Err`; the returned state of the `Option` instance. -/
def Result.ok (self : RF) : Option Val :=
  match self with
  | .Ok v => some v
  | .Err _ => none

/-- `Result.err` (`result.py`, lines 56-60). -/
def Result.err (self : RF) : Option Val :=
  match self with
  | .Ok _ => none
  | .Err e => some e

/-- `Result.expect` (`result.py`, lines 96-100): success value, or
`UnwrapError(f"{msg}: {error}")`. -/
def Result.expect (self : RF) (msg : String) : Except PyErr Val :=
  match self with
  | .Ok v => .ok v
  | .Err e => .error (.unwrapError (msg ++ ": " ++ pyStr e))

/-- `Result.unwrap` (`result.py`, lines 102-106). -/
def Result.unwrap (self : RF) : Except PyErr Val :=
  match self with
  | .Ok v => .ok v
  | .Err e =>
    .error (.unwrapError ("called `Result.unwrap()` on a `Err` value: " ++ pyStr e))

/-- `Result.expect_err` (`result.py`, lines 129-133). -/
def Result.expect_err (self : RF) (msg : String) : Except PyErr Val :=
  match self with
  | .Ok v => .error (.unwrapError (msg ++ ": " ++ pyStr v))
  | .Err e => .ok e

/-- `Result.unwrap_err` (`result.py`, lines 135-139). -/
def Result.unwrap_err (self : RF) : Except PyErr Val :=
  match self with
  | .Ok v =>
    .error (.unwrapError ("called `Result.unwrap_err()` on a `Ok` value: " ++ pyStr v))
  | .Err e => .ok e

/-- `Result.and_` (`result.py`, lines 144-148), exactly as written: on
`_Ok` it returns the argument `res` (a `Result` instance); on `_Err` it
returns `self.res.error`, the bare error payload, not a `Result`
(the line carries a `type: ignore`). -/
def Result.and_ (self : RF) (res : Val) : Val :=
  match self with
  | .Ok _ => res
  | .Err e => e

/-- `Result.or_` (`result.py`, lines 156-160), exactly as written: on
`_Ok` it returns `self.res.value`, the bare success payload, not a
`Result`; on `_Err` it returns the argument `res`. -/
def Result.or_ (self : RF) (res : Val) : Val :=
  match self with
  | .Ok v => v
  | .Err _ => res

/-- `Result.transpose` (`result.py`, lines 180-188): on `_Ok` it asserts
the payload is an `Option` instance, then returns
`create_some(create_ok(x))` when that inner `Option` holds `_Some(x)` and
`Option(None)` when it is empty; on `_Err(e)` it returns
`create_some(create_err(e))`.  The result is the `optb` state of the
returned `Option` instance. -/
def Result.transpose (self : RF) : Except PyErr (Option Val) :=
  match self with
  | .Ok v =>
    match v with
    | .someV x => .ok (some (Val.ok x))
    | .noneV => .ok none
    | _ => .error (.assertionError "")
  | .Err e => .ok (some (Val.err e))

/-- `Result.__iter__` (`result.py`, lines 223-227): the same generator
shape as `Option.__iter__`, with the same PEP 479 conversion of the
`raise StopIteration` in the failure branch into a `RuntimeError`. -/
def Result.iterAll (self : RF) : List Val × Option PyErr :=
  match self with
  | .Ok v => ([v], none)
  | .Err _ => ([], some (.runtimeError "generator raised StopIteration"))

/-- `Result.value` property (`result.py`, lines 229-231): delegates to
`unwrap()`. -/
def Result.value (self : RF) : Except PyErr Val :=
  Result.unwrap self

/-- `Result.error` property (`result.py`, lines 233-235): delegates to
`unwrap_err()`. -/
def Result.error (self : RF) : Except PyErr Val :=
  Result.unwrap_err self

/-- `resultify` (`result.py`, lines 244-254): wrap a callable so that a
normal return `v` becomes `Ok(v)` and a raised exception `e` becomes
`Err(e)`; the wrapper itself is total. -/
def resultify {γ : Type} (f : γ → Except PyErr Val) : γ → RF :=
  fun a =>
    match f a with
    | .ok v => .Ok v
    | .error e => .Err (Val.exc e)

/-- Modelled from the spec: the adapter scenario function
`divide(a, b) = a / b`, which raises `ZeroDivisionError` when `b = 0`; it
is a test scenario of the spec, not a function of the sources.  At the
inputs the scenario uses, Python true division is exact, so natural
division agrees with it. -/
def divide (p : Nat × Nat) : Except PyErr Val :=
  if p.2 = 0 then .error (.zeroDivisionError "division by zero")
  else .ok (.nat (p.1 / p.2))

/-- C1: what `Option.transpose` actually computes, evaluated at the three
shapes of the claim.  `present(Success(3))` yields
`Success(present(Success(3)))` rather than `Success(present(3))`;
`present(Failure(7))` yields `Success(present(Failure(7)))` rather than
`Failure(7)`; `empty()` yields `Failure(None)` rather than
`Success(empty())`. -/
theorem option_transpose_code_eval :
    Option.transpose (some (Val.ok (Val.nat 3))) = RF.Ok (Val.someV (Val.ok (Val.nat 3))) ∧
    Option.transpose (some (Val.ok (Val.nat 3))) ≠ RF.Ok (Val.someV (Val.nat 3)) ∧
    Option.transpose (some (Val.err (Val.nat 7))) = RF.Ok (Val.someV (Val.err (Val.nat 7))) ∧
    Option.transpose (some (Val.err (Val.nat 7))) ≠ RF.Err (Val.nat 7) ∧
    Option.transpose none = RF.Err Val.pyNone ∧
    Option.transpose none ≠ RF.Ok (Val.ofOpt none) := by
  decide

/-- C2: what `Result.and_` and `Result.or_` actually return on the branch
the claim is about.  `Failure(7).and_(Success(1))` returns the bare
payload `7`, which is not the untouched `Result` instance `Failure(7)`;
`Success(5).or_(Failure(2))` returns the bare payload `5`, not the
untouched `Success(5)`. -/
theorem result_and_or_code_eval :
    Result.and_ (RF.Err (Val.nat 7)) (Val.ofRes (RF.Ok (Val.nat 1))) = Val.nat 7 ∧
    Result.and_ (RF.Err (Val.nat 7)) (Val.ofRes (RF.Ok (Val.nat 1))) ≠ Val.ofRes (RF.Err (Val.nat 7)) ∧
    Result.or_ (RF.Ok (Val.nat 5)) (Val.ofRes (RF.Err (Val.nat 2))) = Val.nat 5 ∧
    Result.or_ (RF.Ok (Val.nat 5)) (Val.ofRes (RF.Err (Val.nat 2))) ≠ Val.ofRes (RF.Ok (Val.nat 5)) := by
  decide

/-- C3: the transpose round trip evaluated at concrete values of both
types.  Starting from `x = present(Success(3))`,
`x.transpose().transpose()` yields `present(Success(Success(3))) ≠ x`;
starting from `y = Success(present(3))`, `y.transpose().transpose()`
yields `Success(present(Success(3))) ≠ y`.  The pairing is not
self-inverse. -/
theorem transpose_roundtrip_code_eval :
    Result.transpose (Option.transpose (some (Val.ok (Val.nat 3)))) =
      Except.ok (some (Val.ok (Val.ok (Val.nat 3)))) ∧
    Result.transpose (Option.transpose (some (Val.ok (Val.nat 3)))) ≠
      Except.ok (some (Val.ok (Val.nat 3))) ∧
    Result.transpose (RF.Ok (Val.someV (Val.nat 3))) = Except.ok (some (Val.ok (Val.nat 3))) ∧
    Option.transpose (some (Val.ok (Val.nat 3))) = RF.Ok (Val.someV (Val.ok (Val.nat 3))) ∧
    RF.Ok (Val.someV (Val.ok (Val.nat 3))) ≠ RF.Ok (Val.someV (Val.nat 3)) := by
  decide

/-- C4 counterexample: on the empty container with value `3`, `insert`
returns the container itself, now `present(3)`, and that returned object
is not the bare value `3` the claim promises. -/
theorem insert_returns_container_not_value :
    (Option.insert none (Val.nat 3)).2 = Val.ofOpt (some (Val.nat 3)) ∧
    (Option.insert none (Val.nat 3)).2 ≠ Val.nat 3 := by
  decide

/-- C4 (amended): for every container state and value, `insert(value)`
replaces the contents with `present(value)` and returns the container
itself, which then holds `present(value)`. -/
theorem insert_replaces_and_returns_container (self : Option Val) (value : Val) :
    (Option.insert self value).1 = some value ∧
    (Option.insert self value).2 = Val.ofOpt (some value) :=
  ⟨rfl, rfl⟩

/-- C5: the Optional/Result round trip.  `present(v).ok_or(e).ok()` is
`present(v)`; `empty().ok_or(e).ok()` is `empty()`; and
`empty().ok_or(e).err()` is `present(e)`. -/
theorem ok_or_roundtrip (v e : Val) :
    Result.ok (Option.ok_or (some v) e) = some v ∧
    Result.ok (Option.ok_or none e) = none ∧
    Result.err (Option.ok_or none e) = some e :=
  ⟨rfl, rfl, rfl⟩

/-- C6: `take()` on a present container returns `present(v)` and resets
the container to empty; on an empty container it returns `empty()` and
leaves the state unchanged; and a second `take()` immediately after a
first always returns `empty()`. -/
theorem take_resets_to_empty (v : Val) (self : Option Val) :
    Option.take (some v) = (none, some v) ∧
    Option.take none = (none, none) ∧
    (Option.take (Option.take self).1).2 = none := by
  cases self <;> exact ⟨rfl, rfl, rfl⟩

/-- C7: draining the iterators.  A present `Option` and a success `Result`
yield exactly the contained value and terminate cleanly, but on the empty
and failure sides the generator body executes `raise StopIteration`,
which PEP 479 turns into a `RuntimeError` — the sequence does not
terminate without error as the claim states. -/
theorem iter_code_eval (v e : Val) :
    Option.iterAll (some v) = ([v], none) ∧
    Option.iterAll none = ([], some (PyErr.runtimeError "generator raised StopIteration")) ∧
    Result.iterAll (RF.Ok v) = ([v], none) ∧
    Result.iterAll (RF.Err e) = ([], some (PyErr.runtimeError "generator raised StopIteration")) :=
  ⟨rfl, rfl, rfl, rfl⟩

/-- C8: the wrapped function returns `Success(f(a))` when `f` returns
normally and `Failure(e)` when `f` raises `e`, and is itself total (its
return type carries no exception); wrapping `divide` gives `Success(5)`
at `(10, 2)` and `Failure(ZeroDivisionError)` at `(10, 0)`. -/
theorem resultify_correct {γ : Type} (f : γ → Except PyErr Val) (a : γ) :
    (∀ v, f a = Except.ok v → resultify f a = RF.Ok v) ∧
    (∀ e, f a = Except.error e → resultify f a = RF.Err (Val.exc e)) ∧
    resultify divide (10, 2) = RF.Ok (Val.nat 5) ∧
    resultify divide (10, 0) = RF.Err (Val.exc (PyErr.zeroDivisionError "division by zero")) := by
  refine ⟨fun v h => ?_, fun e h => ?_, by decide, by decide⟩ <;> simp [resultify, h]

/-- C8 witness: `resultify_correct` applied to `divide` at the two inputs
of the adapter scenario. -/
theorem resultify_correct_witness :
    resultify divide (10, 2) = RF.Ok (Val.nat 5) ∧
    resultify divide (10, 0) = RF.Err (Val.exc (PyErr.zeroDivisionError "division by zero")) :=
  ⟨(resultify_correct divide (10, 2)).1 (Val.nat 5) (by decide),
   (resultify_correct divide (10, 0)).2.1 (PyErr.zeroDivisionError "division by zero") (by decide)⟩

/-- C9: each extraction operation returns the matching payload on the
right variant and raises exactly `UnwrapError` on the wrong one, with the
`Result` expect-style messages formatted as `{message}: {payload}`; the
equations cover both variants of every operation, so no other error kind
is ever produced. -/
theorem extraction_unwrap_spec (v e : Val) (msg : String) :
    Option.expect (some v) msg = Except.ok v ∧
    Option.expect none msg = Except.error (PyErr.unwrapError msg) ∧
    Option.unwrap (some v) = Except.ok v ∧
    Option.unwrap none =
      Except.error (PyErr.unwrapError "called `Option.unwrap()` on a `None` value") ∧
    Result.expect (RF.Ok v) msg = Except.ok v ∧
    Result.expect (RF.Err e) msg =
      Except.error (PyErr.unwrapError (msg ++ ": " ++ pyStr e)) ∧
    Result.unwrap (RF.Ok v) = Except.ok v ∧
    Result.unwrap (RF.Err e) =
      Except.error (PyErr.unwrapError ("called `Result.unwrap()` on a `Err` value: " ++ pyStr e)) ∧
    Result.expect_err (RF.Ok v) msg =
      Except.error (PyErr.unwrapError (msg ++ ": " ++ pyStr v)) ∧
    Result.expect_err (RF.Err e) msg = Except.ok e ∧
    Result.unwrap_err (RF.Ok v) =
      Except.error (PyErr.unwrapError ("called `Result.unwrap_err()` on a `Ok` value: " ++ pyStr v)) ∧
    Result.unwrap_err (RF.Err e) = Except.ok e :=
  ⟨rfl, rfl, rfl, rfl, rfl, rfl, rfl, rfl, rfl, rfl, rfl, rfl⟩

/-- C10: the `value` and `error` properties delegate to `unwrap()` and
`unwrap_err()`: on a success, `value` is the payload and `error` raises
`UnwrapError`; on a failure, `error` is the payload and `value` raises
`UnwrapError`. -/
theorem value_error_properties (v e : Val) :
    Result.value (RF.Ok v) = Except.ok v ∧
    Result.error (RF.Ok v) =
      Except.error (PyErr.unwrapError ("called `Result.unwrap_err()` on a `Ok` value: " ++ pyStr v)) ∧
    Result.error (RF.Err e) = Except.ok e ∧
    Result.value (RF.Err e) =
      Except.error (PyErr.unwrapError ("called `Result.unwrap()` on a `Err` value: " ++ pyStr e)) :=
  ⟨rfl, rfl, rfl, rfl⟩

end BSUtils
